import Mathlib

/-!
Shallow embedding of the A/B-test calculator in src/app.py: the frequentist
two-proportion z-test (lines 81-97), the Bayesian Beta-posterior comparison
(lines 213-220) and the sample-size calculator (lines 274-290), together with
the widget-level input constraints (the number_input minima and the selectbox
option lists).  The transcendental library calls are abstracted: norm.cdf is a
function parameter Φ, norm.ppf a parameter ppf, and beta.rvs a sampler
parameter rvs; math.sqrt is Real.sqrt.  A second, Python-faithful variant of
each calculator records where the reference code raises an exception
(ZeroDivisionError on float division by zero, ValueError from math.sqrt on a
negative radicand) instead of returning a value.
-/

namespace ABTest

inductive TailMode
  | twoTailed
  | oneTailed
  deriving DecidableEq

inductive Decision
  | SHIP
  | ITERATE
  | STOP
  deriving DecidableEq

inductive PyError
  | ValueError
  | ZeroDivisionError
  deriving DecidableEq

structure FreqResult where
  cr_a : ℝ
  cr_b : ℝ
  z_score : ℝ
  p_value : ℝ
  lift_pct : ℝ
  ci_low : ℝ
  ci_high : ℝ

/-- Conversion rate of one variant (app.py lines 81-82). -/
noncomputable def convRate (visitors conversions : ℤ) : ℝ :=
  (conversions : ℝ) / (visitors : ℝ)

/-- Pooled conversion rate (app.py line 84). -/
noncomputable def pooledRate (va ca vb cb : ℤ) : ℝ :=
  ((ca : ℝ) + (cb : ℝ)) / ((va : ℝ) + (vb : ℝ))

/-- Radicand of the standard error (app.py line 85). -/
noncomputable def seRadicand (va ca vb cb : ℤ) : ℝ :=
  pooledRate va ca vb cb * (1 - pooledRate va ca vb cb) * (1 / (va : ℝ) + 1 / (vb : ℝ))

/-- Standard error (app.py line 85). -/
noncomputable def stdError (va ca vb cb : ℤ) : ℝ :=
  Real.sqrt (seRadicand va ca vb cb)

/-- Z-score (app.py line 87). -/
noncomputable def zScore (va ca vb cb : ℤ) : ℝ :=
  (convRate vb cb - convRate va ca) / stdError va ca vb cb

/-- P-value (app.py lines 89-92); the standard normal CDF norm.cdf is the
abstract parameter Φ. -/
noncomputable def pValue (Φ : ℝ → ℝ) (mode : TailMode) (va ca vb cb : ℤ) : ℝ :=
  match mode with
  | .twoTailed => 2 * (1 - Φ |zScore va ca vb cb|)
  | .oneTailed => 1 - Φ (zScore va ca vb cb)

/-- The frequentist tab computation (app.py lines 81-97). -/
noncomputable def runFrequentist (Φ : ℝ → ℝ) (mode : TailMode) (va ca vb cb : ℤ) :
    FreqResult where
  cr_a := convRate va ca
  cr_b := convRate vb cb
  z_score := zScore va ca vb cb
  p_value := pValue Φ mode va ca vb cb
  lift_pct := (convRate vb cb - convRate va ca) / convRate va ca * 100
  ci_low := (convRate vb cb - convRate va ca) - 1.96 * stdError va ca vb cb
  ci_high := (convRate vb cb - convRate va ca) + 1.96 * stdError va ca vb cb

/-- Python-faithful frequentist computation: math.sqrt raises ValueError on a
negative radicand (app.py line 85), and float division raises ZeroDivisionError
when the standard error is zero (line 87) or cr_a is zero (line 94); the
reference code catches none of these, so the run crashes. -/
noncomputable def runFrequentistChecked (Φ : ℝ → ℝ) (mode : TailMode) (va ca vb cb : ℤ) :
    Except PyError FreqResult :=
  if seRadicand va ca vb cb < 0 then .error .ValueError
  else if stdError va ca vb cb = 0 then .error .ZeroDivisionError
  else if convRate va ca = 0 then .error .ZeroDivisionError
  else .ok (runFrequentist Φ mode va ca vb cb)

/-- Widget-level constraints of the frequentist and Bayesian tabs (app.py lines
72-78 and 205-210): visitors have min_value 1, conversions have min_value 0,
and no upper bound relates conversions to visitors. -/
def freqWidgetAccepts (va ca vb cb : ℤ) : Bool :=
  decide (1 ≤ va) && decide (0 ≤ ca) && decide (1 ≤ vb) && decide (0 ≤ cb)

/-- Beta posterior parameters alpha and beta_param (app.py lines 213-214). -/
def posteriorParams (visitors conversions : ℤ) : ℤ × ℤ :=
  (conversions + 1, visitors - conversions + 1)

/-- Number of Monte Carlo draws (app.py line 216). -/
def nSamples : ℕ := 100000

/-- Fraction of elementwise sample pairs with sample_b > sample_a
(app.py line 220): the mean of the boolean comparison array. -/
def fractionBGreater (samples_a samples_b : List ℚ) : ℚ :=
  (((samples_b.zip samples_a).countP fun p => decide (p.2 < p.1)) : ℚ) /
    ((samples_b.zip samples_a).length : ℚ)

/-- The Bayesian tab computation (app.py lines 213-220); the library sampler
beta.rvs is modelled as an abstract function rvs mapping (alpha, beta_param,
size) to the list of drawn samples. -/
def runBayesian (rvs : ℤ → ℤ → ℕ → List ℚ) (va ca vb cb : ℤ) : ℚ :=
  fractionBGreater
    (rvs (posteriorParams va ca).1 (posteriorParams va ca).2 nSamples)
    (rvs (posteriorParams vb cb).1 (posteriorParams vb cb).2 nSamples)

/-- A degenerate sampler used to instantiate theorems about runBayesian. -/
def constSampler : ℤ → ℤ → ℕ → List ℚ := fun _ _ n => List.replicate n 0

/-- z_alpha (app.py lines 274, 277); norm.ppf is the abstract parameter ppf. -/
noncomputable def zAlpha (ppf : ℝ → ℝ) (confidence : ℕ) : ℝ :=
  ppf (1 - (1 - (confidence : ℝ) / 100) / 2)

/-- z_beta (app.py lines 275, 278). -/
noncomputable def zBeta (ppf : ℝ → ℝ) (power : ℕ) : ℝ :=
  ppf (1 - (1 - (power : ℝ) / 100))

/-- Real-valued sample size estimate n (app.py lines 280-288). -/
noncomputable def sampleSizeReal (ppf : ℝ → ℝ) (baseline mde : ℝ)
    (confidence power : ℕ) : ℝ :=
  2 * ((baseline + baseline * (1 + mde)) / 2) *
      (1 - (baseline + baseline * (1 + mde)) / 2) *
      (zAlpha ppf confidence + zBeta ppf power) ^ 2 /
    (baseline * (1 + mde) - baseline) ^ 2

/-- Displayed users-per-variant: math.ceil applied once at the end
(app.py line 290). -/
noncomputable def computeSampleSize (ppf : ℝ → ℝ) (baseline mde : ℝ)
    (confidence power : ℕ) : ℤ :=
  ⌈sampleSizeReal ppf baseline mde confidence power⌉

/-- Python-faithful sample size computation: when p2 = p1 the division on
app.py line 288 raises ZeroDivisionError and the run crashes. -/
noncomputable def computeSampleSizeChecked (ppf : ℝ → ℝ) (baseline mde : ℝ)
    (confidence power : ℕ) : Except PyError ℤ :=
  if (baseline * (1 + mde) - baseline) ^ 2 = 0 then .error .ZeroDivisionError
  else .ok (computeSampleSize ppf baseline mde confidence power)

/-- Modelled from the spec: the SHIP/ITERATE/STOP decision rule of section 4.1
step 8, evaluated in order.  The spec notes that the decision logic appears
only in the final evolution of the tool; src/app.py carries no decision label
(its result explanation at lines 116-128 branches on the p-value alone), so
this definition follows the spec text. -/
noncomputable def decisionRule (ci_low ci_high p_value : ℝ) : Decision :=
  if 0 < ci_low ∧ p_value < 0.05 then .SHIP
  else if 0 < ci_high then .ITERATE
  else .STOP

/-- Modelled from the spec: the decision attached to a frequentist result,
a function of its ci_low, ci_high and p_value fields only. -/
noncomputable def frequentistDecision (r : FreqResult) : Decision :=
  decisionRule r.ci_low r.ci_high r.p_value

lemma stdError_swap (va ca vb cb : ℤ) : stdError vb cb va ca = stdError va ca vb cb := by
  unfold stdError seRadicand pooledRate
  congr 1
  ring

lemma zScore_swap (va ca vb cb : ℤ) : zScore vb cb va ca = -zScore va ca vb cb := by
  unfold zScore
  rw [stdError_swap, ← neg_div, neg_sub]

/-- C4: the p-value equals 2 times (1 - Φ of the absolute z-score) in two-tailed
mode and 1 - Φ of the z-score in one-tailed mode, where the z-score is the rate
difference over the standard error. -/
theorem c4_p_value_formula (Φ : ℝ → ℝ) (va ca vb cb : ℤ) :
    (runFrequentist Φ .twoTailed va ca vb cb).p_value
        = 2 * (1 - Φ |(runFrequentist Φ .twoTailed va ca vb cb).z_score|) ∧
    (runFrequentist Φ .oneTailed va ca vb cb).p_value
        = 1 - Φ (runFrequentist Φ .oneTailed va ca vb cb).z_score ∧
    ∀ mode : TailMode,
      (runFrequentist Φ mode va ca vb cb).z_score
        = ((runFrequentist Φ mode va ca vb cb).cr_b
            - (runFrequentist Φ mode va ca vb cb).cr_a) / stdError va ca vb cb :=
  ⟨rfl, rfl, fun _ => rfl⟩

/-- C5: the confidence interval is the absolute lift plus and minus 1.96 times
the standard error, identically in both tail modes, and therefore always
contains the absolute lift. -/
theorem c5_confidence_interval (Φ : ℝ → ℝ) (mode : TailMode) (va ca vb cb : ℤ) :
    (runFrequentist Φ mode va ca vb cb).ci_low
        = ((runFrequentist Φ mode va ca vb cb).cr_b
            - (runFrequentist Φ mode va ca vb cb).cr_a) - 1.96 * stdError va ca vb cb ∧
    (runFrequentist Φ mode va ca vb cb).ci_high
        = ((runFrequentist Φ mode va ca vb cb).cr_b
            - (runFrequentist Φ mode va ca vb cb).cr_a) + 1.96 * stdError va ca vb cb ∧
    (runFrequentist Φ .twoTailed va ca vb cb).ci_low
        = (runFrequentist Φ .oneTailed va ca vb cb).ci_low ∧
    (runFrequentist Φ .twoTailed va ca vb cb).ci_high
        = (runFrequentist Φ .oneTailed va ca vb cb).ci_high ∧
    (runFrequentist Φ mode va ca vb cb).ci_low
        ≤ (runFrequentist Φ mode va ca vb cb).cr_b
            - (runFrequentist Φ mode va ca vb cb).cr_a ∧
    (runFrequentist Φ mode va ca vb cb).cr_b - (runFrequentist Φ mode va ca vb cb).cr_a
        ≤ (runFrequentist Φ mode va ca vb cb).ci_high := by
  have hse : 0 ≤ 1.96 * stdError va ca vb cb :=
    mul_nonneg (by norm_num) (Real.sqrt_nonneg _)
  exact ⟨rfl, rfl, rfl, rfl, sub_le_self _ hse, le_add_of_nonneg_right hse⟩

/-- C10: swapping the two variants negates the z-score and the absolute lift,
reflects the confidence interval, and leaves the two-tailed p-value unchanged. -/
theorem c10_swap_symmetry (Φ : ℝ → ℝ) (va ca vb cb : ℤ) :
    (runFrequentist Φ .twoTailed vb cb va ca).z_score
        = -(runFrequentist Φ .twoTailed va ca vb cb).z_score ∧
    ((runFrequentist Φ .twoTailed vb cb va ca).cr_b
        - (runFrequentist Φ .twoTailed vb cb va ca).cr_a)
        = -((runFrequentist Φ .twoTailed va ca vb cb).cr_b
            - (runFrequentist Φ .twoTailed va ca vb cb).cr_a) ∧
    (runFrequentist Φ .twoTailed vb cb va ca).ci_low
        = -(runFrequentist Φ .twoTailed va ca vb cb).ci_high ∧
    (runFrequentist Φ .twoTailed vb cb va ca).ci_high
        = -(runFrequentist Φ .twoTailed va ca vb cb).ci_low ∧
    (runFrequentist Φ .twoTailed vb cb va ca).p_value
        = (runFrequentist Φ .twoTailed va ca vb cb).p_value := by
  refine ⟨zScore_swap va ca vb cb, ?_, ?_, ?_, ?_⟩
  · show convRate va ca - convRate vb cb = -(convRate vb cb - convRate va ca)
    ring
  · show (convRate va ca - convRate vb cb) - 1.96 * stdError vb cb va ca
        = -((convRate vb cb - convRate va ca) + 1.96 * stdError va ca vb cb)
    rw [stdError_swap]; ring
  · show (convRate va ca - convRate vb cb) + 1.96 * stdError vb cb va ca
        = -((convRate vb cb - convRate va ca) - 1.96 * stdError va ca vb cb)
    rw [stdError_swap]; ring
  · show pValue Φ .twoTailed vb cb va ca = pValue Φ .twoTailed va ca vb cb
    simp only [pValue]
    rw [zScore_swap, abs_neg]

/-- C1: the decision label is a pure function of (ci_low, ci_high, p_value)
evaluated in order: SHIP when ci_low is positive and the p-value is below 0.05,
otherwise ITERATE when ci_high is positive, otherwise STOP; no other part of a
frequentist result affects it. -/
theorem c1_decision_pure_function :
    (∀ r : FreqResult, frequentistDecision r = decisionRule r.ci_low r.ci_high r.p_value) ∧
    ∀ lo hi p : ℝ,
      (decisionRule lo hi p = .SHIP ↔ 0 < lo ∧ p < 0.05) ∧
      (decisionRule lo hi p = .ITERATE ↔ ¬(0 < lo ∧ p < 0.05) ∧ 0 < hi) ∧
      (decisionRule lo hi p = .STOP ↔ ¬(0 < lo ∧ p < 0.05) ∧ hi ≤ 0) := by
  refine ⟨fun _ => rfl, fun lo hi p => ?_⟩
  unfold decisionRule
  split_ifs with h1 h2 <;> simp_all [not_lt]

/-- C2: at each division-by-zero condition of the calculators (a zero standard
error from a degenerate pooled rate, a zero cr_a in the relative lift, and a
zero rate difference in the sample-size formula) the reference code raises an
uncaught ZeroDivisionError instead of returning a typed failure result. -/
theorem c2_division_by_zero_crashes (Φ : ℝ → ℝ) (mode : TailMode) (ppf : ℝ → ℝ) :
    runFrequentistChecked Φ mode 1 0 1 0 = .error .ZeroDivisionError ∧
    runFrequentistChecked Φ mode 10 0 10 5 = .error .ZeroDivisionError ∧
    computeSampleSizeChecked ppf (1/20) 0 95 80 = .error .ZeroDivisionError := by
  refine ⟨?_, ?_, ?_⟩
  · have hrad : seRadicand 1 0 1 0 = 0 := by
      unfold seRadicand pooledRate; push_cast; norm_num
    have hse : stdError 1 0 1 0 = 0 := by
      unfold stdError; rw [hrad, Real.sqrt_zero]
    unfold runFrequentistChecked
    rw [if_neg (by rw [hrad]; norm_num), if_pos hse]
  · have hrad : seRadicand 10 0 10 5 = 3 / 80 := by
      unfold seRadicand pooledRate; push_cast; norm_num
    have hse : stdError 10 0 10 5 ≠ 0 := by
      unfold stdError; rw [hrad]; positivity
    have hcr : convRate 10 0 = 0 := by
      unfold convRate; norm_num
    unfold runFrequentistChecked
    rw [if_neg (by rw [hrad]; norm_num), if_neg hse, if_pos hcr]
  · unfold computeSampleSizeChecked
    rw [if_pos (by norm_num)]

/-- C3: the widget layer accepts conversions_a greater than visitors_a (its
number inputs only impose minima), the frequentist computation is then
attempted and crashes with a ValueError from math.sqrt on a negative radicand
instead of returning an InvalidInput failure, and the Bayesian tab likewise
builds a non-positive (hence invalid) beta_param from such input. -/
theorem c3_no_boundary_validation :
    freqWidgetAccepts 10 20 10 5 = true ∧
    posteriorParams 10 20 = (21, -9) ∧
    ∀ (Φ : ℝ → ℝ) (mode : TailMode),
      runFrequentistChecked Φ mode 10 20 10 5 = .error .ValueError := by
  refine ⟨by decide, by decide, fun Φ mode => ?_⟩
  unfold runFrequentistChecked
  rw [if_pos (show seRadicand 10 20 10 5 < 0 by
    unfold seRadicand pooledRate; push_cast; norm_num)]

lemma equalObservations_eval (Φ : ℝ → ℝ) (hΦ : Φ 0 = 1 / 2) (v c : ℤ)
    (hc : 0 < c) (hv : c < v) :
    (runFrequentist Φ .twoTailed v c v c).z_score = 0 ∧
    (runFrequentist Φ .twoTailed v c v c).p_value = 1 ∧
    (runFrequentist Φ .twoTailed v c v c).lift_pct = 0 ∧
    frequentistDecision (runFrequentist Φ .twoTailed v c v c) = Decision.ITERATE := by
  have hz : zScore v c v c = 0 := by
    unfold zScore
    rw [sub_self, zero_div]
  have hp : pValue Φ .twoTailed v c v c = 1 := by
    simp only [pValue]
    rw [hz, abs_zero, hΦ]
    norm_num
  have hv0 : (0 : ℝ) < (v : ℝ) := by exact_mod_cast hc.trans hv
  have hc0 : (0 : ℝ) < (c : ℝ) := by exact_mod_cast hc
  have hcv : (c : ℝ) < (v : ℝ) := by exact_mod_cast hv
  have hrad : 0 < seRadicand v c v c := by
    unfold seRadicand pooledRate
    have h1 : 0 < ((c : ℝ) + c) / ((v : ℝ) + v) := by positivity
    have h2 : ((c : ℝ) + c) / ((v : ℝ) + v) < 1 := by
      rw [div_lt_one (by positivity)]
      linarith
    have h3 : 0 < 1 / (v : ℝ) + 1 / (v : ℝ) := by positivity
    exact mul_pos (mul_pos h1 (by linarith)) h3
  have hse : 0 < stdError v c v c := Real.sqrt_pos.mpr hrad
  refine ⟨hz, hp, ?_, ?_⟩
  · show (convRate v c - convRate v c) / convRate v c * 100 = 0
    rw [sub_self, zero_div, zero_mul]
  · show decisionRule ((convRate v c - convRate v c) - 1.96 * stdError v c v c)
        ((convRate v c - convRate v c) + 1.96 * stdError v c v c)
        (pValue Φ .twoTailed v c v c) = Decision.ITERATE
    have hhigh : 0 < (convRate v c - convRate v c) + 1.96 * stdError v c v c := by
      rw [sub_self, zero_add]
      exact mul_pos (by norm_num) hse
    have hnotship : ¬(0 < (convRate v c - convRate v c) - 1.96 * stdError v c v c
        ∧ pValue Φ .twoTailed v c v c < 0.05) := by
      rintro ⟨h1, h2⟩
      rw [hp] at h2
      norm_num at h2
    unfold decisionRule
    rw [if_neg hnotship, if_pos hhigh]

/-- C6 (amended): on equal valid observations with conversions strictly between
0 and visitors, the two-tailed test yields z_score 0, p_value exactly 1 and
lift_pct 0, but the spec decision rule yields ITERATE, not STOP, because
ci_high = 1.96 times a positive standard error is positive. -/
theorem c6_equal_variants (Φ : ℝ → ℝ) (hΦ : Φ 0 = 1 / 2) (v c : ℤ)
    (hc : 0 < c) (hv : c < v) :
    (runFrequentist Φ .twoTailed v c v c).z_score = 0 ∧
    (runFrequentist Φ .twoTailed v c v c).p_value = 1 ∧
    (runFrequentist Φ .twoTailed v c v c).lift_pct = 0 ∧
    frequentistDecision (runFrequentist Φ .twoTailed v c v c) = Decision.ITERATE :=
  equalObservations_eval Φ hΦ v c hc hv

/-- Witness for C6 at the Scenario 2 input (1000 visitors and 50 conversions in
each variant), with a concrete CDF model taking the value 1/2 at 0. -/
theorem c6_equal_variants_witness :
    (fun _ : ℝ => (1 / 2 : ℝ)) 0 = 1 / 2 ∧
    (runFrequentist (fun _ : ℝ => (1 / 2 : ℝ)) .twoTailed 1000 50 1000 50).p_value = 1 ∧
    frequentistDecision
        (runFrequentist (fun _ : ℝ => (1 / 2 : ℝ)) .twoTailed 1000 50 1000 50)
      = Decision.ITERATE :=
  ⟨rfl, (c6_equal_variants _ rfl 1000 50 (by decide) (by decide)).2.1,
    (c6_equal_variants _ rfl 1000 50 (by decide) (by decide)).2.2.2⟩

/-- Counterexample to C6 as stated: at the Scenario 2 input the spec decision
rule yields ITERATE rather than the claimed STOP. -/
theorem c6_equal_variants_counterexample :
    frequentistDecision
        (runFrequentist (fun _ : ℝ => (1 / 2 : ℝ)) .twoTailed 1000 50 1000 50)
      ≠ Decision.STOP := by
  have h := equalObservations_eval (fun _ : ℝ => (1 / 2 : ℝ)) rfl 1000 50
    (by decide) (by decide)
  rw [h.2.2.2]
  decide

/-- C7: the Bayesian test builds Beta posterior parameters conversions + 1 and
visitors - conversions + 1 for each variant, draws 100000 samples from each,
and returns the fraction of elementwise sample pairs where the B sample
exceeds the A sample, a value in the interval from 0 to 1. -/
theorem c7_bayesian_posterior (rvs : ℤ → ℤ → ℕ → List ℚ) (va ca vb cb : ℤ)
    (hlen : ∀ a b n, (rvs a b n).length = n) (hca : ca ≤ va) (hcb : cb ≤ vb) :
    posteriorParams va ca = (ca + 1, va - ca + 1) ∧
    posteriorParams vb cb = (cb + 1, vb - cb + 1) ∧
    runBayesian rvs va ca vb cb =
      ((((rvs (cb + 1) (vb - cb + 1) 100000).zip (rvs (ca + 1) (va - ca + 1) 100000)).countP
          fun p => decide (p.2 < p.1)) : ℚ) / (100000 : ℚ) ∧
    0 ≤ runBayesian rvs va ca vb cb ∧ runBayesian rvs va ca vb cb ≤ 1 := by
  refine ⟨rfl, rfl, ?_, ?_, ?_⟩
  · simp only [runBayesian, fractionBGreater, posteriorParams, nSamples, List.length_zip, hlen]
    norm_num
  · unfold runBayesian fractionBGreater
    exact div_nonneg (Nat.cast_nonneg _) (Nat.cast_nonneg _)
  · unfold runBayesian fractionBGreater
    apply div_le_one_of_le
    · exact_mod_cast List.countP_le_length _
    · exact Nat.cast_nonneg _

/-- Witness for C7 with a concrete sampler returning 100000 zeros. -/
theorem c7_bayesian_posterior_witness :
    (5 : ℤ) ≤ 10 ∧ 0 ≤ runBayesian constSampler 10 5 10 6 ∧
      runBayesian constSampler 10 5 10 6 ≤ 1 :=
  ⟨by decide,
    (c7_bayesian_posterior constSampler 10 5 10 6
      (fun _ _ n => by simp [constSampler]) (by decide) (by decide)).2.2.2.1,
    (c7_bayesian_posterior constSampler 10 5 10 6
      (fun _ _ n => by simp [constSampler]) (by decide) (by decide)).2.2.2.2⟩

lemma zSum_pos (ppf : ℝ → ℝ) (hppf : ∀ q, 1 / 2 < q → 0 < ppf q) (confidence power : ℕ)
    (hconf : confidence = 90 ∨ confidence = 95 ∨ confidence = 99)
    (hpow : power = 80 ∨ power = 90) :
    0 < zAlpha ppf confidence + zBeta ppf power := by
  have h1 : 0 < zAlpha ppf confidence := by
    unfold zAlpha
    apply hppf
    rcases hconf with h | h | h <;> subst h <;> norm_num
  have h2 : 0 < zBeta ppf power := by
    unfold zBeta
    apply hppf
    rcases hpow with h | h <;> subst h <;> norm_num
  linarith

/-- C8 (amended): with baseline_rate in (0,1), mde_relative in (0,1], target
rate baseline_rate times (1 + mde_relative) at most 1, and enumerated
confidence and power, the result is the ceiling of the real-valued estimate n,
applied once, the estimate is positive, and the result is at least 1. -/
theorem c8_sample_size (ppf : ℝ → ℝ) (baseline mde : ℝ) (confidence power : ℕ)
    (hppf : ∀ q, 1 / 2 < q → 0 < ppf q)
    (hb0 : 0 < baseline) (hb1 : baseline < 1)
    (hm0 : 0 < mde) (hm1 : mde ≤ 1)
    (htarget : baseline * (1 + mde) ≤ 1)
    (hconf : confidence = 90 ∨ confidence = 95 ∨ confidence = 99)
    (hpow : power = 80 ∨ power = 90) :
    computeSampleSize ppf baseline mde confidence power
        = ⌈sampleSizeReal ppf baseline mde confidence power⌉ ∧
    0 < sampleSizeReal ppf baseline mde confidence power ∧
    1 ≤ computeSampleSize ppf baseline mde confidence power := by
  have hS := zSum_pos ppf hppf confidence power hconf hpow
  have hbm : 0 < baseline * mde := mul_pos hb0 hm0
  have hpool0 : 0 < (baseline + baseline * (1 + mde)) / 2 := by nlinarith
  have hpool1 : (baseline + baseline * (1 + mde)) / 2 < 1 := by nlinarith
  have hn : 0 < sampleSizeReal ppf baseline mde confidence power := by
    unfold sampleSizeReal
    have hden : 0 < (baseline * (1 + mde) - baseline) ^ 2 := by
      rw [show baseline * (1 + mde) - baseline = baseline * mde by ring]
      exact pow_pos hbm 2
    have h2 : 0 < 1 - (baseline + baseline * (1 + mde)) / 2 := by linarith
    have hnum : 0 < 2 * ((baseline + baseline * (1 + mde)) / 2) *
        (1 - (baseline + baseline * (1 + mde)) / 2) *
        (zAlpha ppf confidence + zBeta ppf power) ^ 2 :=
      mul_pos (mul_pos (mul_pos two_pos hpool0) h2) (pow_pos hS 2)
    exact div_pos hnum hden
  refine ⟨rfl, hn, ?_⟩
  have hceil := Int.ceil_pos.mpr hn
  unfold computeSampleSize
  omega

/-- Witness for C8 at baseline 1/2, mde 1/2, confidence 95, power 80, with the
identity as a concrete ppf model (positive above 1/2). -/
theorem c8_sample_size_witness :
    (0 : ℝ) < 1 / 2 ∧
    1 ≤ computeSampleSize (fun q : ℝ => q) (1 / 2) (1 / 2) 95 80 :=
  ⟨by norm_num,
    (c8_sample_size (fun q : ℝ => q) (1 / 2) (1 / 2) 95 80
      (fun q hq => lt_trans (by norm_num) hq)
      (by norm_num) (by norm_num) (by norm_num) (by norm_num) (by norm_num)
      (Or.inr (Or.inl rfl)) (Or.inl rfl)).2.2⟩

/-- Counterexample to C8 as stated: at baseline_rate 1, mde_relative 1 (both in
the claimed domain), confidence 95 and power 80, the pooled rate exceeds 1, the
estimate n is negative, and the returned ceiling is below 1. -/
theorem c8_sample_size_counterexample :
    computeSampleSize (fun q : ℝ => q) 1 1 95 80 < 1 := by
  have h : sampleSizeReal (fun q : ℝ => q) 1 1 95 80 ≤ ((0 : ℤ) : ℝ) := by
    unfold sampleSizeReal zAlpha zBeta
    norm_num
  have h2 := Int.ceil_le.mpr h
  unfold computeSampleSize
  omega

/-- C9 (amended): holding baseline, confidence and power fixed, the real-valued
estimate n strictly decreases as mde_relative increases (within the valid
domain where the target rate stays at most 1), and the returned integer, its
ceiling, is non-increasing; strict decrease of the integer fails because the
ceiling can coincide at nearby mde values. -/
theorem c9_mde_monotonic (ppf : ℝ → ℝ) (baseline m1 m2 : ℝ) (confidence power : ℕ)
    (hppf : ∀ q, 1 / 2 < q → 0 < ppf q)
    (hb0 : 0 < baseline) (hb1 : baseline < 1)
    (hm1pos : 0 < m1) (h12 : m1 < m2) (hm2le : m2 ≤ 1)
    (htarget : baseline * (1 + m2) ≤ 1)
    (hconf : confidence = 90 ∨ confidence = 95 ∨ confidence = 99)
    (hpow : power = 80 ∨ power = 90) :
    sampleSizeReal ppf baseline m2 confidence power
        < sampleSizeReal ppf baseline m1 confidence power ∧
    computeSampleSize ppf baseline m2 confidence power
        ≤ computeSampleSize ppf baseline m1 confidence power := by
  have hS := zSum_pos ppf hppf confidence power hconf hpow
  have hm2pos : 0 < m2 := hm1pos.trans h12
  have hstrict : sampleSizeReal ppf baseline m2 confidence power
      < sampleSizeReal ppf baseline m1 confidence power := by
    have e : ∀ m : ℝ, sampleSizeReal ppf baseline m confidence power
        = 2 * ((baseline + baseline * (1 + m)) / 2) *
            (1 - (baseline + baseline * (1 + m)) / 2) *
            (zAlpha ppf confidence + zBeta ppf power) ^ 2 / (baseline * m) ^ 2 := by
      intro m
      unfold sampleSizeReal
      rw [show baseline * (1 + m) - baseline = baseline * m by ring]
    rw [e m1, e m2,
      div_lt_div_iff (pow_pos (mul_pos hb0 hm2pos) 2) (pow_pos (mul_pos hb0 hm1pos) 2)]
    have hbm2 : baseline * m2 ≤ 1 - baseline := by nlinarith
    have hbr : 0 < 2 * (m1 + m2) * (1 - baseline) + m1 * m2 * (1 - 2 * baseline) := by
      nlinarith [mul_le_mul_of_nonneg_left hbm2 (show (0:ℝ) ≤ 2 * (m1 + m2) by linarith),
        mul_pos hm1pos hm2pos, mul_pos (mul_pos hb0 hm2pos) hm2pos]
    have key : 0 < (zAlpha ppf confidence + zBeta ppf power) ^ 2 * baseline ^ 3 *
        ((m2 - m1) * (2 * (m1 + m2) * (1 - baseline) + m1 * m2 * (1 - 2 * baseline))) :=
      mul_pos (mul_pos (pow_pos hS 2) (pow_pos hb0 3))
        (mul_pos (by linarith) hbr)
    nlinarith [key]
  exact ⟨hstrict, Int.ceil_mono hstrict.le⟩

/-- Witness for C9 at baseline 1/2 with mde increasing from 1/2 to 1. -/
theorem c9_mde_monotonic_witness :
    (1 / 2 : ℝ) < 1 ∧
    computeSampleSize (fun q : ℝ => q) (1 / 2) 1 95 80
        ≤ computeSampleSize (fun q : ℝ => q) (1 / 2) (1 / 2) 95 80 :=
  ⟨by norm_num,
    (c9_mde_monotonic (fun q : ℝ => q) (1 / 2) (1 / 2) 1 95 80
      (fun q hq => lt_trans (by norm_num) hq)
      (by norm_num) (by norm_num) (by norm_num) (by norm_num) (by norm_num) (by norm_num)
      (Or.inr (Or.inl rfl)) (Or.inl rfl)).2⟩

/-- Counterexample to C9 as stated: at baseline 1/2 the valid mde values 9/10
and 91/100 produce the same returned sample size, so the integer result does
not strictly decrease. -/
theorem c9_mde_monotonic_counterexample :
    (9 / 10 : ℝ) < 91 / 100 ∧
    computeSampleSize (fun _ : ℝ => (1 : ℝ)) (1 / 2) (9 / 10) 95 80
        = computeSampleSize (fun _ : ℝ => (1 : ℝ)) (1 / 2) (91 / 100) 95 80 := by
  constructor
  · norm_num
  · have h1 : sampleSizeReal (fun _ : ℝ => (1 : ℝ)) (1 / 2) (9 / 10) 95 80 = 638 / 81 := by
      unfold sampleSizeReal zAlpha zBeta
      norm_num
    have h2 : sampleSizeReal (fun _ : ℝ => (1 : ℝ)) (1 / 2) (91 / 100) 95 80
        = 63438 / 8281 := by
      unfold sampleSizeReal zAlpha zBeta
      norm_num
    unfold computeSampleSize
    rw [h1, h2,
      show ⌈(638 / 81 : ℝ)⌉ = 8 from by
        rw [Int.ceil_eq_iff] <;> norm_num,
      show ⌈(63438 / 8281 : ℝ)⌉ = 8 from by
        rw [Int.ceil_eq_iff] <;> norm_num]

end ABTest
